import Mathlib

/-!
Verification of the Streamly content-based recommendation engine
(`src/recommendation/engine.py`) against its natural-language specification.

The Python code is shallowly embedded: SQLAlchemy rows become Lean
structures, the database becomes an explicit `Store` (a list of profiles
and a list of titles in retrieval order), Python floats become exact
rationals (`ℚ`), nullable columns become `Option`, and Python's stable
`list.sort(key=..., reverse=True)` becomes a stable descending insertion
sort.  `math.log10` is a transcendental operation on floats with no exact
rational counterpart, so the scoring pipeline is parametrised by an
arbitrary function `log10 : ℚ → ℚ`; every theorem below holds for all
such functions, hence in particular for real base-10 logarithm.
-/

namespace Streamly

/-- Embedding of Python string containment `pat in hay` on character lists:
some suffix of the haystack starts with the pattern. -/
def listStartsWith : List Char → List Char → Bool
  | _, [] => true
  | [], _ :: _ => false
  | h :: hs, p :: ps => h == p && listStartsWith hs ps

/-- Any suffix of the haystack starts with the pattern (the empty pattern is
contained in every string, as in Python). -/
def listHasSub : List Char → List Char → Bool
  | [], pat => pat.isEmpty
  | h :: hs, pat => listStartsWith (h :: hs) pat || listHasSub hs pat

/-- Python `pat in hay` for strings. -/
def strContains (hay pat : String) : Bool :=
  listHasSub hay.data pat.data

/-- Python `s.lower()` (ASCII range, which covers the engine's language and
category vocabulary). -/
def pyLower (s : String) : String :=
  ⟨s.data.map Char.toLower⟩

/-- Python `s.strip()`: drop leading and trailing whitespace. -/
def pyStrip (s : String) : String :=
  ⟨((s.data.dropWhile Char.isWhitespace).reverse.dropWhile Char.isWhitespace).reverse⟩

/-- Python `s.split(',')` on character lists: `""` splits to `[""]`, and
every comma separates two (possibly empty) fields. -/
def splitCommaAux : List Char → List (List Char)
  | [] => [[]]
  | c :: rest =>
    if c = ',' then [] :: splitCommaAux rest
    else match splitCommaAux rest with
      | [] => [[c]]
      | h :: t => (c :: h) :: t

/-- Python `s.split(',')`. -/
def pySplitComma (s : String) : List String :=
  (splitCommaAux s.data).map (fun cs => ⟨cs⟩)

/-- Round-half-to-even to the nearest integer, the tie-breaking rule of
Python's builtin `round`. -/
def roundHalfEven (x : ℚ) : ℤ :=
  if x - ⌊x⌋ < 1/2 then ⌊x⌋
  else if x - ⌊x⌋ > 1/2 then ⌊x⌋ + 1
  else if Even ⌊x⌋ then ⌊x⌋ else ⌊x⌋ + 1

/-- Python `round(x, 2)`: round to two decimal places, ties to even. -/
def pyRound2 (x : ℚ) : ℚ :=
  (roundHalfEven (x * 100) : ℚ) / 100

/-- The `Profile` row (`src/database/models.py`): the columns the engine reads.
`preferences` is a nullable text column. -/
structure Profile where
  profile_id : ℕ
  profile_name : String
  kids_profile : Bool
  age_band : String
  preferred_language : String
  preferences : Option String
  deriving Repr, DecidableEq

/-- The `Title` row (`src/database/models.py`): the columns the engine reads.
`imdb_rating` and `imdb_votes` are nullable float columns. -/
structure Title where
  show_id : String
  title_name : String
  category : String
  sub_category : Option String
  duration : ℕ
  age_rating : String
  type : String
  year : ℤ
  origin_region : String
  language : String
  episode_count : ℕ
  is_kids_content : Bool
  imdb_rating : Option ℚ
  imdb_votes : Option ℚ
  has_imdb_data : Bool
  deriving Repr, DecidableEq

/-- Embedding of `RecommendationEngine._get_age_ratings`, with Python's fall-through
control flow linearised: a kids profile whose band matches neither kids
branch falls through to the adult check and then to the final default. -/
def get_age_ratings (profile : Profile) : List String :=
  if profile.kids_profile ∧ profile.age_band = "<13" then ["G", "PG"]
  else if profile.kids_profile ∧ profile.age_band = "13-17" then ["G", "PG", "13+"]
  else if profile.age_band ∈ ["18-24", "25-34", "35-49", "50+"] then
    ["G", "PG", "13+", "16+", "18+"]
  else ["G", "PG", "13+"]

/-- Modelled from the spec: the §4.1 policy table for
`permittedRatings(ageBand, isKidsProfile)`, row by row, used to compare the
code against the spec's table. -/
def spec_permittedRatings (isKids : Bool) (ageBand : String) : List String :=
  if isKids ∧ ageBand = "<13" then ["G", "PG"]
  else if isKids ∧ ageBand = "13-17" then ["G", "PG", "13+"]
  else if ageBand ∈ ["18-24", "25-34", "35-49", "50+"] then
    ["G", "PG", "13+", "16+", "18+"]
  else ["G", "PG", "13+"]

/-- Embedding of `RecommendationEngine._score_preference_match`.  Python's
`if not profile.preferences` is truthiness: `None` and the empty string both
give the neutral branch; `if title.sub_category and ...` likewise requires a
present, non-empty sub-category. -/
def score_preference_match (title : Title) (profile : Profile) : ℚ :=
  match profile.preferences with
  | none => 5
  | some prefStr =>
    if prefStr = "" then 5
    else
      let preferences := (pySplitComma prefStr).map pyStrip
      if title.category ∈ preferences then 10
      else if (match title.sub_category with
               | some sc => sc != "" && preferences.contains sc
               | none => false) then 8
      else if preferences.any (fun pref =>
          strContains (pyLower title.category) (pyLower pref) ||
          strContains (pyLower pref) (pyLower title.category)) then 6
      else 3

/-- Embedding of `RecommendationEngine._score_language_match`.  Note the English check:
`title.language.lower() == 'english' or title.language == 'en'` — the
`'english'` comparison is case-insensitive but the `'en'` comparison is
exact. -/
def score_language_match (title : Title) (profile : Profile) : ℚ :=
  if title.language = "Unknown" then 5
  else if pyLower title.language = pyLower profile.preferred_language then 10
  else if pyLower title.language = "english" ∨ title.language = "en" then 7
  else 3

/-- Modelled from the spec: the language-match rule as §4.2 states it, with
both the value `"english"` and the code `"en"` compared case-insensitively;
used to compare the code against the spec's rule. -/
def spec_languageScore (title : Title) (profile : Profile) : ℚ :=
  if title.language = "Unknown" then 5
  else if pyLower title.language = pyLower profile.preferred_language then 10
  else if pyLower title.language = "english" ∨ pyLower title.language = "en" then 7
  else 3

/-- Embedding of `RecommendationEngine._score_imdb_rating`: neutral 5.0 unless
`has_imdb_data` is set and a rating is present, in which case the raw rating
is the sub-score. -/
def score_imdb_rating (title : Title) : ℚ :=
  if ¬ title.has_imdb_data then 5
  else match title.imdb_rating with
    | none => 5
    | some r => r

/-- Embedding of `RecommendationEngine._score_recency` with the fixed
`current_year = 2026`. -/
def score_recency (title : Title) : ℚ :=
  let current_year : ℤ := 2026
  let age := current_year - title.year
  if age ≤ 1 then 10
  else if age ≤ 3 then 8
  else if age ≤ 5 then 6
  else if age ≤ 10 then 4
  else 2

/-- Embedding of `RecommendationEngine._score_popularity`; `math.log10` is the
parameter `log10`. -/
def score_popularity (log10 : ℚ → ℚ) (title : Title) : ℚ :=
  if ¬ title.has_imdb_data then 5
  else match title.imdb_votes with
    | none => 5
    | some v =>
      if v < 10 then 0
      else min 10 (max 0 ((log10 v - 1) * 3.33))

/-- Embedding of `RecommendationEngine._calculate_score`: the five sub-scores combined
with the fixed weight table
`{preference_match: 3.0, language_match: 2.0, imdb_rating: 2.5,
recency: 1.0, popularity: 1.5}` and rounded to two decimals. -/
def calculate_score (log10 : ℚ → ℚ) (title : Title) (profile : Profile) : ℚ :=
  pyRound2 (score_preference_match title profile * 3.0
    + score_language_match title profile * 2.0
    + score_imdb_rating title * 2.5
    + score_recency title * 1.0
    + score_popularity log10 title * 1.5)

/-- Embedding of `RecommendationEngine._calculate_similarity`.  Python's
`if title1.imdb_rating and title2.imdb_rating` is truthiness: the rating
contribution requires both ratings present *and* nonzero. -/
def calculate_similarity (t1 t2 : Title) : ℚ :=
  let score : ℚ := 0
  let score := score + 10
  let score := score + (if t1.sub_category = t2.sub_category then 10 else 0)
  let score := score + (if t1.type = t2.type then 5 else 0)
  let year_diff := |t1.year - t2.year|
  let score := score + (if year_diff ≤ 5 then (((5 - year_diff) * 2 : ℤ) : ℚ) else 0)
  let score := score +
    (match t1.imdb_rating, t2.imdb_rating with
     | some r1, some r2 =>
       if r1 ≠ 0 ∧ r2 ≠ 0 then
         let rating_diff := |r1 - r2|
         if rating_diff ≤ 1 then (1 - rating_diff) * 10 else 0
       else 0
     | _, _ => 0)
  score

/-- Modelled from the spec: the §4.3 similarity formula as stated, whose
rating term fires whenever both ratings are present (no truthiness); used to
compare the code against the spec's formula. -/
def spec_similarity (t1 t2 : Title) : ℚ :=
  10 + (if t1.sub_category = t2.sub_category then 10 else 0)
     + (if t1.type = t2.type then 5 else 0)
     + (if |t1.year - t2.year| ≤ 5 then (((5 - |t1.year - t2.year|) * 2 : ℤ) : ℚ) else 0)
     + (match t1.imdb_rating, t2.imdb_rating with
        | some r1, some r2 =>
          if |r1 - r2| ≤ 1 then (1 - |r1 - r2|) * 10 else 0
        | _, _ => 0)

/-- The Catalog Store: the relational database as the engine sees it, rows
in the store's retrieval order. -/
structure Store where
  profiles : List Profile
  titles : List Title

/-- Embedding of `DatabaseQueries.get_profile_by_id`: first profile row matching the id. -/
def get_profile_by_id (s : Store) (profile_id : ℕ) : Option Profile :=
  s.profiles.find? (fun p => p.profile_id == profile_id)

/-- Embedding of `DatabaseQueries.get_title_by_show_id`: first title row matching the
show id. -/
def get_title_by_show_id (s : Store) (show_id : String) : Option Title :=
  s.titles.find? (fun t => t.show_id == show_id)

/-- Embedding of `RecommendationEngine._get_candidate_titles`: the kids-content filter
(when the profile is a kids profile) followed by the age-rating filter. -/
def get_candidate_titles (s : Store) (profile : Profile) : List Title :=
  let age_ratings := get_age_ratings profile
  let q := if profile.kids_profile then s.titles.filter (fun t => t.is_kids_content)
           else s.titles
  q.filter (fun t => age_ratings.contains t.age_rating)

/-- The exclusion step of `get_recommendations`.  Python's
`if exclude_show_ids:` is truthiness: `None` and the empty list both skip
the filter. -/
def applyExclusions (candidates : List Title)
    (exclude_show_ids : Option (List String)) : List Title :=
  match exclude_show_ids with
  | none => candidates
  | some ids =>
    if ids.isEmpty then candidates
    else candidates.filter (fun t => !(ids.contains t.show_id))

/-- Stable insertion for a descending sort: `x` is placed before the first
element whose key is not ≥ `x`'s key, so among equal keys earlier elements
stay first. -/
def insertD (key : α → ℚ) (x : α) : List α → List α
  | [] => [x]
  | y :: ys => if key y ≤ key x then x :: y :: ys else y :: insertD key x ys

/-- Embedding of Python's `list.sort(key=..., reverse=True)`: a stable
descending sort (CPython's sort is stable, and `reverse=True` keeps equal
keys in their original order). -/
def sortD (key : α → ℚ) : List α → List α
  | [] => []
  | x :: xs => insertD key x (sortD key xs)

/-- A concrete `log10` stand-in used to instantiate the `log10` parameter
in concrete runs (every theorem holds for all `log10`). -/
def lgZero : ℚ → ℚ := fun _ => 0

/-- The record dict built per candidate in
`RecommendationEngine.get_recommendations` (one field per dict entry). -/
structure RecEntry where
  title : Title
  score : ℚ
  show_id : String
  title_name : String
  category : String
  year : ℤ
  imdb_rating : Option ℚ
  age_rating : String
  type : String
  language : String
  duration : ℕ
  deriving Repr, DecidableEq

/-- The keys of the dict literal in `get_recommendations`, in source
order. -/
def recEntryKeys : List String :=
  ["title", "score", "show_id", "title_name", "category", "year",
   "imdb_rating", "age_rating", "type", "language", "duration"]

/-- Builds one `get_recommendations` record from a candidate title. -/
def mkRecEntry (log10 : ℚ → ℚ) (title : Title) (profile : Profile) : RecEntry :=
  { title := title
    score := calculate_score log10 title profile
    show_id := title.show_id
    title_name := title.title_name
    category := title.category
    year := title.year
    imdb_rating := title.imdb_rating
    age_rating := title.age_rating
    type := title.type
    language := title.language
    duration := title.duration }

/-- The scored candidate list of `get_recommendations`, in the store's
retrieval order: candidates, minus exclusions, each paired with its
calculated score. -/
def rec_scored (log10 : ℚ → ℚ) (s : Store) (profile : Profile)
    (exclude_show_ids : Option (List String)) : List RecEntry :=
  (applyExclusions (get_candidate_titles s profile) exclude_show_ids).map
    (fun t => mkRecEntry log10 t profile)

/-- Embedding of `RecommendationEngine.get_recommendations`: profile lookup (empty result
when absent), candidate retrieval, exclusion, scoring, stable descending
sort by score, truncation to `limit`. -/
def get_recommendations (log10 : ℚ → ℚ) (s : Store) (profile_id : ℕ)
    (limit : ℕ) (exclude_show_ids : Option (List String)) : List RecEntry :=
  match get_profile_by_id s profile_id with
  | none => []
  | some profile =>
    (sortD (fun e => e.score) (rec_scored log10 s profile exclude_show_ids)).take limit

/-- Embedding of `RecommendationEngine.get_recommendations_by_category`: personalized
recommendations with the internally widened limit 100, filtered to the
requested category, truncated to `limit`. -/
def get_recommendations_by_category (log10 : ℚ → ℚ) (s : Store)
    (profile_id : ℕ) (category : String) (limit : ℕ) : List RecEntry :=
  let all_recs := get_recommendations log10 s profile_id 100 none
  (all_recs.filter (fun r => r.category == category)).take limit

/-- The record dict built per candidate in
`RecommendationEngine.get_similar_titles` (one field per dict entry). -/
structure SimEntry where
  title : Title
  score : ℚ
  show_id : String
  title_name : String
  category : String
  year : ℤ
  imdb_rating : Option ℚ
  deriving Repr, DecidableEq

/-- The keys of the dict literal in `get_similar_titles`, in source
order. -/
def simEntryKeys : List String :=
  ["title", "score", "show_id", "title_name", "category", "year", "imdb_rating"]

/-- Builds one `get_similar_titles` record from a candidate title. -/
def mkSimEntry (title candidate : Title) : SimEntry :=
  { title := candidate
    score := calculate_similarity title candidate
    show_id := candidate.show_id
    title_name := candidate.title_name
    category := candidate.category
    year := candidate.year
    imdb_rating := candidate.imdb_rating }

/-- The scored candidate list of `get_similar_titles`, in the store's
retrieval order: same category as the reference, the reference itself
excluded, each paired with its similarity score. -/
def sim_scored (s : Store) (show_id : String) (title : Title) : List SimEntry :=
  (s.titles.filter (fun t => t.category == title.category && t.show_id != show_id)).map
    (fun c => mkSimEntry title c)

/-- Embedding of `RecommendationEngine.get_similar_titles`: reference lookup (empty
result when absent), same-category candidates, similarity scoring, stable
descending sort, truncation to `limit`. -/
def get_similar_titles (s : Store) (show_id : String) (limit : ℕ) : List SimEntry :=
  match get_title_by_show_id s show_id with
  | none => []
  | some title =>
    (sortD (fun e => e.score) (sim_scored s show_id title)).take limit

/-- An adult profile used in concrete runs. -/
def profA : Profile :=
  ⟨1, "Alice", false, "25-34", "Spanish", none⟩

/-- A PG-rated title with no external data, used in concrete runs. -/
def titleA : Title :=
  ⟨"s1", "T1", "Drama", none, 100, "PG", "Movie", 2026, "US", "Unknown", 1,
   false, none, none, false⟩

/-- A one-profile, one-title store used in concrete runs. -/
def storeA : Store := ⟨[profA], [titleA]⟩

/-- A title with external data present, used in concrete runs. -/
def titleB : Title :=
  ⟨"s2", "T2", "Drama", none, 100, "PG", "Movie", 2026, "US", "Unknown", 1,
   false, none, none, true⟩

/-- A title whose language is the lower-case code `"en"`. -/
def titleEn : Title :=
  ⟨"s3", "T3", "Drama", none, 90, "PG", "Movie", 2020, "US", "en", 1,
   false, none, none, false⟩

/-- A title whose language is the upper-case code `"EN"`. -/
def titleEN : Title :=
  ⟨"s4", "T4", "Drama", none, 90, "PG", "Movie", 2020, "US", "EN", 1,
   false, none, none, false⟩

/-- A profile preferring French, used in concrete runs. -/
def profFr : Profile :=
  ⟨3, "Frankie", false, "25-34", "French", none⟩

/-- A title carrying the (falsy) external rating `0.0`. -/
def titleZ1 : Title :=
  ⟨"z1", "Z1", "Drama", none, 90, "PG", "Movie", 2020, "US", "English", 1,
   false, some 0, none, true⟩

/-- A second title carrying the (falsy) external rating `0.0`, in the same
category as `titleZ1`. -/
def titleZ2 : Title :=
  ⟨"z2", "Z2", "Drama", none, 95, "PG", "Movie", 2020, "US", "English", 1,
   false, some 0, none, true⟩

/-! ### Helper lemmas: the stable descending sort -/

theorem mem_insertD (key : α → ℚ) (x a : α) (l : List α) :
    a ∈ insertD key x l ↔ a = x ∨ a ∈ l := by
  induction l with
  | nil => simp [insertD]
  | cons y ys ih =>
    by_cases h : key y ≤ key x
    · rw [insertD, if_pos h]
      try simp only [List.mem_cons]
      try tauto
    · rw [insertD, if_neg h]
      try simp only [List.mem_cons, ih]
      try tauto

theorem mem_sortD (key : α → ℚ) (a : α) (l : List α) :
    a ∈ sortD key l ↔ a ∈ l := by
  induction l with
  | nil => simp [sortD]
  | cons x xs ih =>
    rw [sortD, mem_insertD, ih, List.mem_cons]

theorem pairwise_insertD (key : α → ℚ) (x : α) (l : List α)
    (h : l.Pairwise (fun a b => key b ≤ key a)) :
    (insertD key x l).Pairwise (fun a b => key b ≤ key a) := by
  induction l with
  | nil => simp [insertD]
  | cons y ys ih =>
    obtain ⟨hy, hys⟩ := List.pairwise_cons.mp h
    by_cases hxy : key y ≤ key x
    · rw [insertD, if_pos hxy]
      refine List.Pairwise.cons ?_ (List.Pairwise.cons hy hys)
      intro b hb
      rcases List.mem_cons.mp hb with rfl | hb'
      · exact hxy
      · exact le_trans (hy b hb') hxy
    · rw [insertD, if_neg hxy]
      refine List.Pairwise.cons ?_ (ih hys)
      intro b hb
      rcases (mem_insertD key x b ys).mp hb with rfl | hb'
      · exact le_of_lt (lt_of_not_le hxy)
      · exact hy b hb'

theorem sorted_sortD (key : α → ℚ) (l : List α) :
    (sortD key l).Pairwise (fun a b => key b ≤ key a) := by
  induction l with
  | nil => simp [sortD]
  | cons x xs ih => exact pairwise_insertD key x _ ih

theorem filter_insertD (key : α → ℚ) (q : ℚ) (x : α) (l : List α) :
    (insertD key x l).filter (fun a => decide (key a = q)) =
      if key x = q then x :: l.filter (fun a => decide (key a = q))
      else l.filter (fun a => decide (key a = q)) := by
  induction l with
  | nil =>
    rw [insertD]
    by_cases hx : key x = q <;> simp [List.filter, hx]
  | cons y ys ih =>
    by_cases hyx : key y ≤ key x
    · rw [insertD, if_pos hyx]
      by_cases hx : key x = q <;> simp [List.filter, hx]
    · rw [insertD, if_neg hyx]
      by_cases hx : key x = q
      · have hy : ¬ key y = q := by
          intro hy
          exact hyx (by rw [hy, hx])
        rw [if_pos hx]
        simp only [List.filter, hy]
        rw [ih, if_pos hx]
        simp [List.filter, hy]
      · rw [if_neg hx]
        by_cases hyq : key y = q
        · simp only [List.filter, hyq]
          rw [ih, if_neg hx]
          try simp [List.filter, hyq]
        · simp only [List.filter, hyq]
          rw [ih, if_neg hx]
          try simp [List.filter, hyq]

/-- Stability of the embedded sort: within any equal-score class, the sorted
list keeps exactly the input's elements in the input's order. -/
theorem filter_sortD (key : α → ℚ) (q : ℚ) (l : List α) :
    (sortD key l).filter (fun a => decide (key a = q)) =
      l.filter (fun a => decide (key a = q)) := by
  induction l with
  | nil => simp [sortD]
  | cons x xs ih =>
    rw [sortD, filter_insertD]
    by_cases hx : key x = q
    · rw [if_pos hx, ih]
      simp [List.filter, hx]
    · rw [if_neg hx, ih]
      simp [List.filter, hx]

/-! ### Helper lemmas: Python rounding -/

theorem roundHalfEven_le (x : ℚ) : (roundHalfEven x : ℚ) ≤ x + 1/2 := by
  have h1 : ((⌊x⌋ : ℤ) : ℚ) ≤ x := Int.floor_le x
  have h2 : x < ⌊x⌋ + 1 := Int.lt_floor_add_one x
  unfold roundHalfEven
  split_ifs with ha hb hc <;> push_cast <;> linarith

theorem le_roundHalfEven (x : ℚ) : x - 1/2 ≤ (roundHalfEven x : ℚ) := by
  have h1 : ((⌊x⌋ : ℤ) : ℚ) ≤ x := Int.floor_le x
  have h2 : x < ⌊x⌋ + 1 := Int.lt_floor_add_one x
  unfold roundHalfEven
  split_ifs with ha hb hc <;> push_cast <;> linarith

theorem roundHalfEven_mono {x y : ℚ} (h : x ≤ y) :
    roundHalfEven x ≤ roundHalfEven y := by
  by_contra hc
  push_neg at hc
  have h1 := roundHalfEven_le x
  have h2 := le_roundHalfEven y
  have h3 : (roundHalfEven y : ℚ) + 1 ≤ (roundHalfEven x : ℚ) := by
    exact_mod_cast Int.add_one_le_iff.mpr hc
  have hyx : y ≤ x := by linarith
  have hxy : x = y := le_antisymm h hyx
  subst hxy
  exact absurd hc (lt_irrefl _)

theorem pyRound2_mono {x y : ℚ} (h : x ≤ y) : pyRound2 x ≤ pyRound2 y := by
  unfold pyRound2
  have h1 : roundHalfEven (x * 100) ≤ roundHalfEven (y * 100) :=
    roundHalfEven_mono (by linarith)
  have h2 : (roundHalfEven (x * 100) : ℚ) ≤ (roundHalfEven (y * 100) : ℚ) := by
    exact_mod_cast h1
  linarith

/-- The similarity score as a closed sum (the accumulator of
`_calculate_similarity` unfolded). -/
theorem calculate_similarity_eq (t1 t2 : Title) :
    calculate_similarity t1 t2 =
      10 + (if t1.sub_category = t2.sub_category then 10 else 0)
         + (if t1.type = t2.type then 5 else 0)
         + (if |t1.year - t2.year| ≤ 5
            then (((5 - |t1.year - t2.year|) * 2 : ℤ) : ℚ) else 0)
         + (match t1.imdb_rating, t2.imdb_rating with
            | some r1, some r2 =>
              if r1 ≠ 0 ∧ r2 ≠ 0 then
                if |r1 - r2| ≤ 1 then (1 - |r1 - r2|) * 10 else 0
              else 0
            | _, _ => 0) := by
  simp only [calculate_similarity, zero_add]

/-! ### C1 -/

/-- C1 counterexample: the claim says every branch of `permittedRatings`
contains at least {G, PG, 13+}, but the kids/under-13 branch returns only
`["G", "PG"]`, which does not contain `"13+"`. -/
theorem c1_counterexample :
    "13+" ∉ get_age_ratings ⟨0, "Kid", true, "<13", "en", none⟩ := by
  decide

/-- C1 (amended): for every profile, `_get_age_ratings` returns a non-empty
list containing at least the ratings G and PG, in every branch; the kids
under-13 branch omits 13+, so {G, PG} is the largest common core. -/
theorem c1_theorem (p : Profile) :
    get_age_ratings p ≠ [] ∧
    "G" ∈ get_age_ratings p ∧ "PG" ∈ get_age_ratings p := by
  unfold get_age_ratings
  split_ifs <;> exact ⟨by decide, by decide, by decide⟩

/-! ### C2 -/

/-- C2: `_get_age_ratings` computes exactly the spec's §4.1 policy table:
kids/under-13 ↦ {G, PG}; kids/13-17 ↦ {G, PG, 13+}; any profile in an adult
band ↦ all five ratings; every other combination (unrecognized bands
included) ↦ the fallback {G, PG, 13+}, with no error path. -/
theorem c2_theorem (p : Profile) :
    get_age_ratings p = spec_permittedRatings p.kids_profile p.age_band :=
  rfl

/-! ### C5 -/

/-- C5 counterexample: for the title language `"EN"` (and a non-matching
preferred language), the code scores 3.0 but the spec's rule scores 7.0:
the code compares the `'en'` code case-sensitively
(`title.language == 'en'`), so `"EN"` is not recognised as English. -/
theorem c5_counterexample :
    score_language_match titleEN profFr = 3 ∧
    spec_languageScore titleEN profFr = 7 := by
  constructor <;> decide

/-- C5 (amended): the language sub-score rule holds as claimed except that
the English code `'en'` is compared exactly (case-sensitively); the
`"english"` value and the preferred-language comparison are
case-insensitive. -/
theorem c5_theorem (t : Title) (p : Profile) :
    (t.language = "Unknown" → score_language_match t p = 5) ∧
    (t.language ≠ "Unknown" →
      pyLower t.language = pyLower p.preferred_language →
      score_language_match t p = 10) ∧
    (t.language ≠ "Unknown" →
      pyLower t.language ≠ pyLower p.preferred_language →
      (pyLower t.language = "english" ∨ t.language = "en") →
      score_language_match t p = 7) ∧
    (t.language ≠ "Unknown" →
      pyLower t.language ≠ pyLower p.preferred_language →
      ¬(pyLower t.language = "english" ∨ t.language = "en") →
      score_language_match t p = 3) := by
  unfold score_language_match
  refine ⟨?_, ?_, ?_, ?_⟩ <;> intros <;> simp_all

/-- C5 witness: the amended rule applied to the concrete title language
`"en"` against preferred language `"French"`, giving sub-score 7. -/
theorem c5_witness :
    titleEn.language ≠ "Unknown" ∧
    pyLower titleEn.language ≠ pyLower profFr.preferred_language ∧
    (pyLower titleEn.language = "english" ∨ titleEn.language = "en") ∧
    score_language_match titleEn profFr = 7 :=
  ⟨by decide, by decide, Or.inr (by decide),
   (c5_theorem titleEn profFr).2.2.1 (by decide) (by decide) (Or.inr (by decide))⟩

/-! ### C6 -/

/-- C6 counterexample: two same-category titles that agree on sub-category,
type and year and both carry the rating `0.0`.  The claim's formula adds
`(1.0 − 0) × 10 = 10` for the rating term (both ratings are present), total
45; the code's truthiness test `if title1.imdb_rating and
title2.imdb_rating` treats `0.0` as absent and scores 35. -/
theorem c6_counterexample :
    calculate_similarity titleZ1 titleZ2 = 35 ∧
    spec_similarity titleZ1 titleZ2 = 45 := by
  constructor <;>
    norm_num [calculate_similarity, spec_similarity, titleZ1, titleZ2]

/-- C6 (amended): the similarity score is the claimed sum — 10 for the
shared category, +10 for equal sub-categories (both-null included), +5 for
equal types, +(5 − yearDiff)×2 when the year gap is at most 5, and the
rating term — except that the rating term requires both ratings to be
present *and nonzero* (Python truthiness), not merely present. -/
theorem c6_theorem (t1 t2 : Title) :
    calculate_similarity t1 t2 =
      10 + (if t1.sub_category = t2.sub_category then 10 else 0)
         + (if t1.type = t2.type then 5 else 0)
         + (if |t1.year - t2.year| ≤ 5
            then (((5 - |t1.year - t2.year|) * 2 : ℤ) : ℚ) else 0)
         + (match t1.imdb_rating, t2.imdb_rating with
            | some r1, some r2 =>
              if r1 ≠ 0 ∧ r2 ≠ 0 then
                if |r1 - r2| ≤ 1 then (1 - |r1 - r2|) * 10 else 0
              else 0
            | _, _ => 0) :=
  calculate_similarity_eq t1 t2

/-! ### C10 -/

/-- C10: for every pair of titles, the similarity score lies in
[10, 45]: the category contribution 10 is unconditional, every other
contribution is non-negative, and the maxima are 10 + 10 + 5 + 10 + 10. -/
theorem c10_theorem (t1 t2 : Title) :
    10 ≤ calculate_similarity t1 t2 ∧ calculate_similarity t1 t2 ≤ 45 := by
  rw [calculate_similarity_eq]
  have hyl : (0:ℤ) ≤ |t1.year - t2.year| := abs_nonneg _
  have hA1 : (0:ℚ) ≤ (if t1.sub_category = t2.sub_category then (10:ℚ) else 0) := by
    split_ifs <;> norm_num
  have hA2 : (if t1.sub_category = t2.sub_category then (10:ℚ) else 0) ≤ 10 := by
    split_ifs <;> norm_num
  have hB1 : (0:ℚ) ≤ (if t1.type = t2.type then (5:ℚ) else 0) := by
    split_ifs <;> norm_num
  have hB2 : (if t1.type = t2.type then (5:ℚ) else 0) ≤ 5 := by
    split_ifs <;> norm_num
  have hY1 : (0:ℚ) ≤ (if |t1.year - t2.year| ≤ 5
      then (((5 - |t1.year - t2.year|) * 2 : ℤ) : ℚ) else 0) := by
    split_ifs with h
    · exact_mod_cast (by nlinarith : (0:ℤ) ≤ (5 - |t1.year - t2.year|) * 2)
    · norm_num
  have hY2 : (if |t1.year - t2.year| ≤ 5
      then (((5 - |t1.year - t2.year|) * 2 : ℤ) : ℚ) else 0) ≤ 10 := by
    split_ifs with h
    · exact_mod_cast (by nlinarith : (5 - |t1.year - t2.year|) * 2 ≤ (10:ℤ))
    · norm_num
  have hR1 : (0:ℚ) ≤ (match t1.imdb_rating, t2.imdb_rating with
      | some r1, some r2 =>
        if r1 ≠ 0 ∧ r2 ≠ 0 then
          if |r1 - r2| ≤ 1 then (1 - |r1 - r2|) * 10 else 0
        else 0
      | _, _ => 0) := by
    rcases t1.imdb_rating with _ | r1 <;> rcases t2.imdb_rating with _ | r2 <;>
      try norm_num
    split_ifs with hne hd
    · nlinarith [abs_nonneg (r1 - r2)]
    · norm_num
    · norm_num
  have hR2 : (match t1.imdb_rating, t2.imdb_rating with
      | some r1, some r2 =>
        if r1 ≠ 0 ∧ r2 ≠ 0 then
          if |r1 - r2| ≤ 1 then (1 - |r1 - r2|) * 10 else 0
        else 0
      | _, _ => 0) ≤ (10:ℚ) := by
    rcases t1.imdb_rating with _ | r1 <;> rcases t2.imdb_rating with _ | r2 <;>
      try norm_num
    split_ifs with hne hd
    · nlinarith [abs_nonneg (r1 - r2)]
    · norm_num
    · norm_num
  constructor <;> linarith

/-! ### C4 -/

/-- C4: when the profile id matches no stored profile,
`get_recommendations` returns the empty list, and when the show id matches
no stored title, `get_similar_titles` returns the empty list; neither
not-found condition raises an error (both functions are total and just
return `[]`). -/
theorem c4_theorem (lg : ℚ → ℚ) (s : Store) (pid : ℕ) (sid : String)
    (limit : ℕ) (excl : Option (List String))
    (h1 : ∀ p ∈ s.profiles, p.profile_id ≠ pid)
    (h2 : ∀ t ∈ s.titles, t.show_id ≠ sid) :
    get_recommendations lg s pid limit excl = [] ∧
    get_similar_titles s sid limit = [] := by
  have e1 : get_profile_by_id s pid = none := by
    apply List.find?_eq_none.mpr
    intro p hp
    simpa using h1 p hp
  have e2 : get_title_by_show_id s sid = none := by
    apply List.find?_eq_none.mpr
    intro t ht
    simpa using h2 t ht
  constructor
  · simp [get_recommendations, e1]
  · simp [get_similar_titles, e2]

/-- C4 witness: on the empty store, an absent profile id and an absent show
id both produce empty results. -/
theorem c4_witness :
    (∀ p ∈ (⟨[], []⟩ : Store).profiles, p.profile_id ≠ 1) ∧
    (∀ t ∈ (⟨[], []⟩ : Store).titles, t.show_id ≠ "nope") ∧
    (get_recommendations lgZero ⟨[], []⟩ 1 10 none = [] ∧
     get_similar_titles ⟨[], []⟩ "nope" 10 = []) :=
  ⟨by simp, by simp,
   c4_theorem lgZero ⟨[], []⟩ 1 "nope" 10 none (by simp) (by simp)⟩

/-! ### C7 -/

/-- C7: with both ratings present and every other field equal, the rounded
total score is monotonically non-decreasing in `title.rating`: the rating
sub-score is the raw rating (weight 2.5) when `has_imdb_data` is set and a
constant 5.0 otherwise, every other sub-score ignores `imdb_rating`, and
Python's `round(·, 2)` is monotone. -/
theorem c7_theorem (lg : ℚ → ℚ) (p : Profile) (t : Title) (r1 r2 : ℚ)
    (h : r1 ≤ r2) :
    calculate_score lg { t with imdb_rating := some r1 } p ≤
    calculate_score lg { t with imdb_rating := some r2 } p := by
  unfold calculate_score
  apply pyRound2_mono
  have e1 : score_preference_match { t with imdb_rating := some r1 } p
      = score_preference_match { t with imdb_rating := some r2 } p := rfl
  have e2 : score_language_match { t with imdb_rating := some r1 } p
      = score_language_match { t with imdb_rating := some r2 } p := rfl
  have e3 : score_recency { t with imdb_rating := some r1 }
      = score_recency { t with imdb_rating := some r2 } := rfl
  have e4 : score_popularity lg { t with imdb_rating := some r1 }
      = score_popularity lg { t with imdb_rating := some r2 } := rfl
  have e5 : score_imdb_rating { t with imdb_rating := some r1 } ≤
      score_imdb_rating { t with imdb_rating := some r2 } := by
    unfold score_imdb_rating
    by_cases hd : t.has_imdb_data
    · simpa [hd] using h
    · simp [hd]
  rw [e1, e2, e3, e4]
  linarith [e5]

/-- C7 witness: raising the rating of a concrete title from 1 to 2 does not
decrease its score for a concrete profile. -/
theorem c7_witness :
    (1 : ℚ) ≤ 2 ∧
    calculate_score lgZero { titleB with imdb_rating := some 1 } profA ≤
      calculate_score lgZero { titleB with imdb_rating := some 2 } profA :=
  ⟨by norm_num, c7_theorem lgZero profA titleB 1 2 (by norm_num)⟩

/-! ### C3 -/

/-- C3: every record returned by `get_recommendations` passes both
candidate filters: its show id is in no supplied exclusion list, its age
rating is in the profile's permitted ratings, and for a kids profile the
underlying title is kids content. -/
theorem c3_theorem (lg : ℚ → ℚ) (s : Store) (pid limit : ℕ)
    (excl : Option (List String)) (p : Profile) (r : RecEntry)
    (hp : get_profile_by_id s pid = some p)
    (hr : r ∈ get_recommendations lg s pid limit excl) :
    (∀ ids, excl = some ids → r.show_id ∉ ids) ∧
    r.age_rating ∈ get_age_ratings p ∧
    (p.kids_profile = true → r.title.is_kids_content = true) := by
  simp only [get_recommendations, hp] at hr
  have hr1 : r ∈ sortD (fun e => e.score) (rec_scored lg s p excl) :=
    List.mem_of_mem_take hr
  rw [mem_sortD] at hr1
  simp only [rec_scored] at hr1
  obtain ⟨t, ht, rfl⟩ := List.mem_map.mp hr1
  have hcand : t ∈ get_candidate_titles s p := by
    rcases excl with _ | ids
    · simpa [applyExclusions] using ht
    · simp only [applyExclusions] at ht
      by_cases hids0 : ids.isEmpty
      · rwa [if_pos hids0] at ht
      · rw [if_neg hids0] at ht
        exact (List.mem_filter.mp ht).1
  refine ⟨?_, ?_, ?_⟩
  · intro ids hids
    subst hids
    simp only [applyExclusions] at ht
    by_cases hids0 : ids.isEmpty
    · rw [List.isEmpty_iff] at hids0
      rw [hids0]
      exact List.not_mem_nil _
    · rw [if_neg hids0] at ht
      have h2 := (List.mem_filter.mp ht).2
      simpa using h2
  · simp only [get_candidate_titles] at hcand
    have h2 := (List.mem_filter.mp hcand).2
    simpa using h2
  · intro hk
    simp only [get_candidate_titles] at hcand
    have h1 := (List.mem_filter.mp hcand).1
    rw [if_pos hk] at h1
    exact (List.mem_filter.mp h1).2

/-- C3 witness: a concrete one-title store in which the returned record
avoids the exclusion list, carries a permitted rating, and the profile is
not a kids profile. -/
theorem c3_witness :
    get_profile_by_id storeA 1 = some profA ∧
    mkRecEntry lgZero titleA profA ∈
      get_recommendations lgZero storeA 1 10 (some ["zz"]) ∧
    ((∀ ids, (some ["zz"] : Option (List String)) = some ids →
        (mkRecEntry lgZero titleA profA).show_id ∉ ids) ∧
      (mkRecEntry lgZero titleA profA).age_rating ∈ get_age_ratings profA ∧
      (profA.kids_profile = true →
        (mkRecEntry lgZero titleA profA).title.is_kids_content = true)) := by
  have h1 : get_profile_by_id storeA 1 = some profA := rfl
  have h2 : get_recommendations lgZero storeA 1 10 (some ["zz"]) =
      [mkRecEntry lgZero titleA profA] := rfl
  have h3 : mkRecEntry lgZero titleA profA ∈
      get_recommendations lgZero storeA 1 10 (some ["zz"]) := by
    rw [h2]
    exact List.mem_singleton.mpr rfl
  exact ⟨h1, h3, c3_theorem lgZero storeA 1 10 (some ["zz"]) profA _ h1 h3⟩

/-! ### C8 -/

/-- C8: both public ranked operations return exactly the stable descending
sort of their scored candidate list truncated to `limit`: the full sorted
list is pairwise descending in score, and within every equal-score class it
preserves the candidates' store-retrieval order (filter-stability). -/
theorem c8_theorem (lg : ℚ → ℚ) (s : Store) (pid : ℕ) (sid : String)
    (limit : ℕ) (excl : Option (List String)) (p : Profile) (t : Title)
    (hp : get_profile_by_id s pid = some p)
    (ht : get_title_by_show_id s sid = some t) :
    (get_recommendations lg s pid limit excl =
        (sortD (fun e => e.score) (rec_scored lg s p excl)).take limit ∧
      (sortD (fun e => e.score) (rec_scored lg s p excl)).Pairwise
        (fun a b => b.score ≤ a.score) ∧
      ∀ q : ℚ,
        (sortD (fun e => e.score) (rec_scored lg s p excl)).filter
            (fun e => decide (e.score = q)) =
          (rec_scored lg s p excl).filter (fun e => decide (e.score = q))) ∧
    (get_similar_titles s sid limit =
        (sortD (fun e => e.score) (sim_scored s sid t)).take limit ∧
      (sortD (fun e => e.score) (sim_scored s sid t)).Pairwise
        (fun a b => b.score ≤ a.score) ∧
      ∀ q : ℚ,
        (sortD (fun e => e.score) (sim_scored s sid t)).filter
            (fun e => decide (e.score = q)) =
          (sim_scored s sid t).filter (fun e => decide (e.score = q))) := by
  refine ⟨⟨?_, ?_, ?_⟩, ?_, ?_, ?_⟩
  · simp [get_recommendations, hp]
  · exact sorted_sortD _ _
  · intro q
    exact filter_sortD _ q _
  · simp [get_similar_titles, ht]
  · exact sorted_sortD _ _
  · intro q
    exact filter_sortD _ q _

/-- C8 witness: the sorted/stable/truncated description instantiated on the
concrete one-title store. -/
theorem c8_witness :
    get_profile_by_id storeA 1 = some profA ∧
    get_title_by_show_id storeA "s1" = some titleA ∧
    ((get_recommendations lgZero storeA 1 10 none =
        (sortD (fun e => e.score) (rec_scored lgZero storeA profA none)).take 10 ∧
      (sortD (fun e => e.score) (rec_scored lgZero storeA profA none)).Pairwise
        (fun a b => b.score ≤ a.score) ∧
      ∀ q : ℚ,
        (sortD (fun e => e.score) (rec_scored lgZero storeA profA none)).filter
            (fun e => decide (e.score = q)) =
          (rec_scored lgZero storeA profA none).filter
            (fun e => decide (e.score = q))) ∧
    (get_similar_titles storeA "s1" 10 =
        (sortD (fun e => e.score) (sim_scored storeA "s1" titleA)).take 10 ∧
      (sortD (fun e => e.score) (sim_scored storeA "s1" titleA)).Pairwise
        (fun a b => b.score ≤ a.score) ∧
      ∀ q : ℚ,
        (sortD (fun e => e.score) (sim_scored storeA "s1" titleA)).filter
            (fun e => decide (e.score = q)) =
          (sim_scored storeA "s1" titleA).filter
            (fun e => decide (e.score = q)))) :=
  ⟨rfl, rfl, c8_theorem lgZero storeA 1 "s1" 10 none profA titleA rfl rfl⟩

/-! ### C9 -/

/-- C9 counterexample: the claim says every record of all three operations
contains all the spec's fields; but the `get_recommendations` record (also
used by the category-scoped operation) has no `sub_category` key, and the
`get_similar_titles` record lacks `sub_category`, `duration`, `age_rating`,
`type` and `language`. -/
theorem c9_counterexample :
    "sub_category" ∉ recEntryKeys ∧
    "sub_category" ∉ simEntryKeys ∧
    "duration" ∉ simEntryKeys ∧
    "age_rating" ∉ simEntryKeys ∧
    "type" ∉ simEntryKeys ∧
    "language" ∉ simEntryKeys := by
  decide

/-- C9 (amended): personalized and category-scoped records contain show id,
title name, category, year, type, duration, age rating, language, rating
and score (plus the raw title object) but no sub-category key; similar-title
records contain only show id, title name, category, year, rating and score
(plus the raw title object). -/
theorem c9_theorem :
    (["show_id", "title_name", "category", "year", "type", "duration",
      "age_rating", "language", "imdb_rating", "score"].all
        (fun k => recEntryKeys.contains k)) = true ∧
    (["show_id", "title_name", "category", "year", "imdb_rating", "score"].all
        (fun k => simEntryKeys.contains k)) = true ∧
    recEntryKeys.contains "sub_category" = false ∧
    simEntryKeys = ["title", "score", "show_id", "title_name", "category",
      "year", "imdb_rating"] := by
  decide

end Streamly
